import Mathlib

/-
Verification development for the data-voyager-bridge transfer pipeline
(`src/app.py`).  The Python source is shallowly embedded: every pure piece
of logic (type mapping, message construction, validation, branching of the
`/ingest` endpoint and of `get_clickhouse_client`) is translated into a
computable Lean definition, and the excluded external collaborators
(filesystem, pandas CSV codec, the ClickHouse driver, PyJWT) are modelled
as an explicit `World` record of outcomes supplied to the run, exactly at
the call sites where `app.py` invokes them.  Python exceptions are
modelled by the `PyErr` inductive (one constructor per exception class the
code raises or catches); a run of the endpoint returns the JSON result
plus the ordered list of externally visible side effects (`Event`).
-/

set_option autoImplicit false

namespace DataVoyager

/-! ## Type mapper (`pandas_to_clickhouse_type`, app.py lines 297-317)

A pandas dtype is abstracted by the predicate class that first matches it
in the source's if/elif chain; `other` stands for any dtype matched by
none of the five recognized predicate groups. -/

inductive Dtype where
  | integer
  | float
  | boolean
  | datetime
  | text
  | object
  | other
deriving DecidableEq

/-- Embedding of `pandas_to_clickhouse_type` (app.py 297-317): the if/elif
chain over `pd.api.types` predicates, with the final `else` fallback. -/
def pandas_to_clickhouse_type : Dtype → String
  | .integer  => "Int64"
  | .float    => "Float64"
  | .boolean  => "UInt8"
  | .datetime => "DateTime"
  | .text     => "String"
  | .object   => "String"
  | .other    => "String"

/-! ## Python exceptions raised/caught by the code -/

inductive PyErr where
  | valueError (msg : String)
  | connectionError (msg : String)
  | fileNotFound (msg : String)
  | runtimeError (msg : String)
  /-- a `clickhouse_connect` driver exception that propagates uncaught to
  the endpoint's outer `except` clause (which lists the driver error type) -/
  | chDriverError (msg : String)
deriving DecidableEq

/-- Decidable equality for `Except`, so concrete runs can be settled by
`decide`. -/
instance {ε α : Type} [DecidableEq ε] [DecidableEq α] : DecidableEq (Except ε α)
  | .ok a, .ok b =>
      if h : a = b then .isTrue (by rw [h]) else .isFalse (by simp [h])
  | .ok _, .error _ => .isFalse (by simp)
  | .error _, .ok _ => .isFalse (by simp)
  | .error e, .error f =>
      if h : e = f then .isTrue (by rw [h]) else .isFalse (by simp [h])

def PyErr.msg : PyErr → String
  | .valueError m => m
  | .connectionError m => m
  | .fileNotFound m => m
  | .runtimeError m => m
  | .chDriverError m => m

/-! ## Request configuration (the JSON body, a Python dict)

`config.get(k)` yields `None` for a missing key; Python truthiness treats
`None`, `""`, `0` and `[]` as false.  Fields the code reads with
`config.get` are `Option`s here, with the truthiness tests made explicit. -/

structure Config where
  host : Option String := none
  port : Option Nat := none
  database : Option String := none
  user : Option String := none
  secure : Bool := false
  password : Option String := none
  jwt : Option String := none
  flow_type : Option String := none
  source_file : Option String := none
  source_delimiter : Option String := none
  source_has_header : Bool := true
  columns : List String := []
  target_table : Option String := none
  target_create : Bool := false
  source_table : Option String := none
  target_file : Option String := none
  target_delimiter : Option String := none
  include_header : Bool := true

/-- Python truthiness of an optional string (`None` and `""` are falsy). -/
def truthyS : Option String → Bool
  | none => false
  | some s => !s.isEmpty

/-- Python truthiness of an optional integer (`None` and `0` are falsy). -/
def truthyN : Option Nat → Bool
  | none => false
  | some n => n != 0

/-! ## External collaborator outcomes -/

/-- Outcome of `jwt.decode` inside `validate_jwt` (PyJWT is the excluded
credential-validation collaborator). -/
inductive JwtOutcome where
  | valid
  | expired
  | invalid (reason : String)
deriving DecidableEq

/-- Outcome of `clickhouse_connect.get_client(**connect_args)` followed by
`client.ping()`, classified the way the `except` chain of
`get_clickhouse_client` (app.py 156-170) classifies the driver error text. -/
inductive DriverOutcome where
  | ok
  | authFailed
  | refused
  | unknownDb
  | otherDriverError (msg : String)
  | unexpectedError (msg : String)
deriving DecidableEq

/-- Outcome of `client.command(f'DESCRIBE TABLE ...')` (app.py 455-468):
either the table exists, or a `ClickHouseError` with some message text. -/
inductive DescribeOutcome where
  | ok
  | chError (msg : String)
deriving DecidableEq

/-- Outcome of `client.insert_df` (app.py 500-517). -/
inductive InsertOutcome where
  | ok
  | chError (msg : String)
  | unexpectedError
deriving DecidableEq

/-- Outcome of `client.query_df` in the ch_to_ff flow (app.py 370). -/
inductive QueryOutcome where
  | ok (rows : Nat)
  | chError (msg : String)
deriving DecidableEq

/-- Outcome of `df.to_csv` in the ch_to_ff flow (app.py 375-382). -/
inductive WriteOutcome where
  | ok
  | ioError
  | unexpectedError
deriving DecidableEq

/-! ## Tabular frame (`pandas.DataFrame` as used by the code)

Only the parts of a DataFrame the orchestration inspects are kept: the
ordered column list (name with inferred dtype, `df.columns` /
`df.dtypes.items()`) and the row count (`len(df)`). -/

structure Frame where
  cols : List (String × Dtype)
  nrows : Nat
deriving DecidableEq

def Frame.colNames (f : Frame) : List String := f.cols.map Prod.fst

/-- Outcome of `pd.read_csv` on the source file (app.py 414-419):
a parsed frame, `pd.errors.EmptyDataError` (completely empty file), or any
other parse exception. -/
inductive ParseOutcome where
  | ok (f : Frame)
  | emptyData
  | readError (msg : String)
deriving DecidableEq

/-- All external outcomes one request observes, positioned at the call
sites where `app.py` performs the corresponding I/O. -/
structure World where
  jwt : JwtOutcome := .valid
  driver : DriverOutcome := .ok
  sourcePathErr : Option String := none
  sourceExists : Bool := true
  sourceIsFile : Bool := true
  parse : ParseOutcome := .emptyData
  describe : DescribeOutcome := .ok
  createErr : Option String := none
  insertRes : InsertOutcome := .ok
  targetPathErr : Option String := none
  targetDirOk : Bool := true
  query : QueryOutcome := .ok 0
  writeRes : WriteOutcome := .ok

/-! ## ConnectionProvider (`get_clickhouse_client`, app.py 81-170) -/

/-- The keyword arguments handed to `clickhouse_connect.get_client`; a
successful return of the provider means a connection is attempted with
exactly these arguments.  (`settings` is a constant dict in the source and
is omitted.) -/
structure ConnectArgs where
  host : String
  port : Nat
  database : String
  user : String
  secure : Bool
  password : Option String
  httpBearer : Option String
deriving DecidableEq

/-- Embedding of `validate_jwt` (app.py 53-78): PyJWT's decode outcome is
the collaborator input; expiry and malformedness raise `ValueError` with
the messages of the source. -/
def validate_jwt : JwtOutcome → Except PyErr Bool
  | .valid => .ok true
  | .expired =>
      .error (.valueError "Authentication token has expired. Please provide a fresh token.")
  | .invalid r =>
      .error (.valueError ("Authentication token is invalid: " ++ r))

def portIsHttp (p : Nat) : Bool := p == 8123 || p == 8443

/-- The pure prefix of `get_clickhouse_client` (app.py 89-146): everything
up to, but not including, the `clickhouse_connect.get_client` call.  A
`.ok args` means the code reaches that call with `args`. -/
def get_clickhouse_args (c : Config) (jwtRes : JwtOutcome) : Except PyErr ConnectArgs :=
  if !(truthyS c.host && truthyN c.port && truthyS c.database && truthyS c.user) then
    .error (.valueError "Missing required ClickHouse connection parameters (host, port, database, user).")
  else if !(truthyS c.password) && !(truthyS c.jwt) then
    .error (.valueError "Either password or JWT token must be provided for ClickHouse connection.")
  else
    let args : ConnectArgs :=
      { host := c.host.getD "", port := c.port.getD 0, database := c.database.getD "",
        user := c.user.getD "", secure := c.secure, password := none, httpBearer := none }
    if truthyS c.jwt then
      match validate_jwt jwtRes with
      | .error e => .error e
      | .ok okFlag =>
        if !okFlag then .error (.valueError "JWT token validation failed.")
        else if portIsHttp args.port then
          .ok { args with httpBearer := c.jwt }
        else if truthyS c.password then
          .ok { args with password := c.password }
        else
          .error (.valueError ("JWT authentication via native protocol on port "
            ++ toString args.port ++ " likely requires password or specific server/proxy setup."))
    else if truthyS c.password then
      .ok { args with password := c.password }
    else
      .error (.valueError "No password or JWT token provided.")

/-- Embedding of `get_clickhouse_client` (app.py 81-170): the pure prefix
followed by the driver call, whose failure is re-raised per the source's
`except` chain.  `.ok args` means a live session was returned to the
caller (connection attempted with `args`, ping succeeded). -/
def get_clickhouse_client (c : Config) (jwtRes : JwtOutcome) (d : DriverOutcome) :
    Except PyErr ConnectArgs :=
  match get_clickhouse_args c jwtRes with
  | .error e => .error e
  | .ok args =>
    match d with
    | .ok => .ok args
    | .authFailed =>
        .error (.connectionError ("ClickHouse authentication failed for user \x27"
          ++ c.user.getD "N/A" ++ "\x27. Check credentials/token."))
    | .refused =>
        .error (.connectionError ("Could not connect to ClickHouse at "
          ++ c.host.getD "N/A" ++ ":" ++ (c.port.map toString).getD "N/A"
          ++ ". Check host/port and network."))
    | .unknownDb =>
        .error (.valueError ("ClickHouse database \x27" ++ c.database.getD "N/A"
          ++ "\x27 not found."))
    | .otherDriverError m =>
        .error (.connectionError ("ClickHouse driver error: " ++ m))
    | .unexpectedError m =>
        .error (.connectionError ("An unexpected error occurred during connection setup: " ++ m))

/-- True when the provider result is a `ValueError` (the spec taxonomy's
`ConfigError`/`AuthError` family), i.e. the config was rejected before or
instead of any connection attempt. -/
def isValueErrorRes : Except PyErr ConnectArgs → Bool
  | .error (.valueError _) => true
  | _ => false

/-! ## Observable side effects of one `/ingest` request -/

inductive Event where
  /-- Call of `pd.read_csv` on the source file -/
  | readFile
  /-- Call of `get_clickhouse_client` (a connection is about to be attempted) -/
  | connectCall
  /-- the provider returned a live session (`client` is set) -/
  | sessionOpen
  /-- Existence probe `DESCRIBE TABLE` issued -/
  | describeTable
  /-- Execution of `CREATE TABLE` DDL with this statement text -/
  | createTable (stmt : String)
  /-- Call of `client.insert_df` with a frame of these columns/rows -/
  | insertFrame (cols : List String) (rows : Nat)
  /-- Call of `client.query_df` (ch_to_ff read) -/
  | queryStore
  /-- Call of `df.to_csv` (ch_to_ff write) -/
  | writeFile
  /-- Call of `client.close()` in the `finally` block -/
  | closeSession
deriving DecidableEq

/-- The value a flow returns to the endpoint's `try`/`except`/`finally`:
`res` is the normal return (`.ok n` = success JSON with n records) or the
exception in flight; `processed` is the value of the mutable
`processed_count` local at exit; `clientOpen` records whether the `client`
local is set (governs the `finally` close). -/
structure FlowOut where
  res : Except PyErr Nat
  processed : Nat
  events : List Event
  clientOpen : Bool

/-! ## String helpers used in messages and DDL (faithful to the source) -/

/-- Embedding of `os.path.basename` for POSIX paths, as used in the read-error message:
the suffix after the last `/` (computed structurally over the characters). -/
def pyBasename (s : String) : String :=
  ⟨s.data.foldl (fun acc ch => if ch = '/' then [] else acc ++ [ch]) []⟩

/-- Whether `pat` occurs at the start of `l`. -/
def leadsWith : List Char → List Char → Bool
  | [], _ => true
  | _ :: _, [] => false
  | a :: as, b :: bs => a == b && leadsWith as bs

def occursInChars (pat : List Char) : List Char → Bool
  | [] => pat.isEmpty
  | b :: bs => leadsWith pat (b :: bs) || occursInChars pat bs

/-- Substring containment: Python's `in` operator on strings. -/
def occursIn (pat s : String) : Bool := occursInChars pat.data s.data

/-- The existence-probe error classification (app.py 462-463): these
substrings of the `DESCRIBE` error mean "unknown table"; any other probe
error is re-raised. -/
def isUnknownTableErr (msg : String) : Bool :=
  occursIn "UNKNOWN_TABLE" msg || occursIn "Table doesn\x27t exist" msg || occursIn "code: 60" msg

/-- The quoted fully-qualified table name of app.py 451. -/
def fullTableName (db t : String) : String := "\"" ++ db ++ "\".\"" ++ t ++ "\""

/-- The basic SQL-safety check on the target table name (app.py 449):
rejected only when `not target_table.isalnum() and '_' not in target_table`.
(Python's `str.isalnum` is modelled on ASCII alphanumerics.) -/
def pyIsAlnum (s : String) : Bool := !s.data.isEmpty && s.data.all Char.isAlphanum

def tableNameInvalid (t : String) : Bool := !(pyIsAlnum t) && !(t.data.contains '_')

/-- The message the code constructs at app.py 425 for missing selected
columns, with Python's list repr of the missing names. -/
def missingColsMsg (missing : List String) : String :=
  "Selected columns not found in file header: ["
    ++ String.intercalate ", " (missing.map (fun s => "\x27" ++ s ++ "\x27")) ++ "]"

/-- The generic read-failure message of app.py 443 (the `except Exception`
re-wrap inside the read `try` block). -/
def readMsg (c : Config) : String :=
  "Error reading CSV file \x27" ++ pyBasename (c.source_file.getD "")
    ++ "\x27. Check format, encoding, and delimiter."

def noCreateMsg (full : String) : String :=
  "Target table " ++ full ++ " does not exist and \x27Create Table\x27 option was not checked."

def noHeaderMsg : String :=
  "Cannot create table automatically: Source file has no header to infer schema."

/-- The synthesized DDL (app.py 476-485): one `"name" Type` item per frame
column in frame order, `MergeTree()` engine, `ORDER BY tuple()`. -/
def createStatement (full : String) (df : Frame) : String :=
  "CREATE TABLE " ++ full ++ " (\n    "
    ++ String.intercalate ",\n    "
        (df.cols.map (fun p => "\"" ++ p.1 ++ "\" " ++ pandas_to_clickhouse_type p.2))
    ++ "\n) ENGINE = MergeTree() ORDER BY tuple()"

def createFailMsg (full em : String) : String :=
  "Failed to auto-create table " ++ full ++ ": " ++ em

/-- The insert-error classification by message sniffing (app.py 508-514). -/
def classifyInsertErr (target_table msg : String) : PyErr :=
  let low := msg.toLower
  if occursIn "type mismatch" low || occursIn "cannot parse" low then
    .runtimeError ("Data type mismatch error inserting into " ++ target_table
      ++ ". Check file data types against table schema.")
  else if occursIn "unknown column" low || occursIn "not found" low then
    .runtimeError ("Column mismatch error inserting into " ++ target_table
      ++ ". Check file header/columns against table schema.")
  else
    .runtimeError ("Error inserting data into ClickHouse table " ++ target_table ++ ": " ++ msg)

def writeFailMsg (c : Config) : String :=
  "Failed to write data to file \x27" ++ c.target_file.getD ""
    ++ "\x27. Check permissions and disk space."

/-! ## Column selection (app.py 421-430) -/

def missingCols (df : Frame) (sel : List String) : List String :=
  sel.filter (fun col => !(df.colNames.contains col))

/-- Embedding of `df = df[selected_columns]`: projection to the selected names in the
caller's requested order; row count unchanged. -/
def projectFrame (df : Frame) (sel : List String) : Frame :=
  { cols := sel.filterMap (fun col => (df.cols.lookup col).map (fun d => (col, d)))
    nrows := df.nrows }

/-- The frame the pipeline continues with after the selection block, given
that the missing-columns check passed (app.py 421-430). -/
def dfSel (c : Config) (df : Frame) : Frame :=
  if c.source_has_header && !c.columns.isEmpty then projectFrame df c.columns else df

/-! ## ff_to_ch flow (app.py 387-519) -/

/-- Embedding of `client.insert_df(full_table_name, df)` and its error handling
(app.py 498-517). -/
def insertStage (w : World) (df : Frame) (tt : String) (pre : List Event) : FlowOut :=
  match w.insertRes with
  | .ok => ⟨.ok df.nrows, df.nrows, pre ++ [Event.insertFrame df.colNames df.nrows], true⟩
  | .chError m =>
      ⟨.error (classifyInsertErr tt m), df.nrows,
        pre ++ [Event.insertFrame df.colNames df.nrows], true⟩
  | .unexpectedError =>
      ⟨.error (.runtimeError "An unexpected error occurred during data insertion."),
        df.nrows, pre ++ [Event.insertFrame df.colNames df.nrows], true⟩

/-- Existence probe, optional `CREATE TABLE`, then insert
(app.py 453-517); entered with a live session. -/
def provisionStage (c : Config) (w : World) (df : Frame) (tt full : String) : FlowOut :=
  match w.describe with
  | .ok =>
      insertStage w df tt
        [Event.readFile, Event.connectCall, Event.sessionOpen, Event.describeTable]
  | .chError m =>
    if isUnknownTableErr m then
      if c.target_create then
        if !c.source_has_header then
          ⟨.error (.valueError noHeaderMsg), df.nrows,
            [Event.readFile, Event.connectCall, Event.sessionOpen, Event.describeTable], true⟩
        else
          match w.createErr with
          | some em =>
              ⟨.error (.runtimeError (createFailMsg full em)), df.nrows,
                [Event.readFile, Event.connectCall, Event.sessionOpen, Event.describeTable,
                  Event.createTable (createStatement full df)], true⟩
          | none =>
              insertStage w df tt
                [Event.readFile, Event.connectCall, Event.sessionOpen, Event.describeTable,
                  Event.createTable (createStatement full df)]
      else
        ⟨.error (.valueError (noCreateMsg full)), df.nrows,
          [Event.readFile, Event.connectCall, Event.sessionOpen, Event.describeTable], true⟩
    else
      ⟨.error (.chDriverError m), df.nrows,
        [Event.readFile, Event.connectCall, Event.sessionOpen, Event.describeTable], true⟩

/-- From `processed_count = len(df)` onward (app.py 432-517): empty
short-circuit, connect, table-name check, provisioning, insert.  `df` is
the frame after the selection block. -/
def afterRead (c : Config) (w : World) (df : Frame) : FlowOut :=
  if df.nrows == 0 then
    ⟨.ok 0, 0, [Event.readFile], false⟩
  else
    match get_clickhouse_client c w.jwt w.driver with
    | .error e => ⟨.error e, df.nrows, [Event.readFile, Event.connectCall], false⟩
    | .ok _ =>
      if tableNameInvalid (c.target_table.getD "") then
        ⟨.error (.valueError ("Invalid target table name: " ++ c.target_table.getD ""
            ++ ". Use alphanumeric characters and underscores.")),
          df.nrows, [Event.readFile, Event.connectCall, Event.sessionOpen], true⟩
      else
        provisionStage c w df (c.target_table.getD "")
          (fullTableName (c.database.getD "") (c.target_table.getD ""))

/-- The ff_to_ch branch of `/ingest` (app.py 387-519).  Note: the
selection block sits inside the same `try` as `pd.read_csv`, so the
missing-columns `ValueError` it raises is caught by the block's
`except Exception` clause and replaced by the generic `readMsg` error
(app.py 441-443) — the embedding reproduces that re-wrap. -/
def ffToCh (c : Config) (w : World) : FlowOut :=
  if !(truthyS c.source_delimiter) then
    ⟨.error (.valueError "Source file delimiter not specified."), 0, [], false⟩
  else if !(truthyS c.target_table) then
    ⟨.error (.valueError "Target ClickHouse table not specified."), 0, [], false⟩
  else
    match w.sourcePathErr with
    | some m => ⟨.error (.valueError m), 0, [], false⟩
    | none =>
      if !w.sourceExists then
        ⟨.error (.fileNotFound ("Source file not found: " ++ c.source_file.getD "")), 0, [], false⟩
      else if !w.sourceIsFile then
        ⟨.error (.valueError ("Source path is not a file: " ++ c.source_file.getD "")), 0, [], false⟩
      else
        match w.parse with
        | .emptyData => ⟨.ok 0, 0, [Event.readFile], false⟩
        | .readError _ => ⟨.error (.valueError (readMsg c)), 0, [Event.readFile], false⟩
        | .ok df0 =>
          if c.source_has_header && !c.columns.isEmpty then
            if !(missingCols df0 c.columns).isEmpty then
              ⟨.error (.valueError (readMsg c)), 0, [Event.readFile], false⟩
            else
              afterRead c w (projectFrame df0 c.columns)
          else
            afterRead c w df0

/-! ## ch_to_ff flow (app.py 334-385) -/

def chToFf (c : Config) (w : World) : FlowOut :=
  if c.columns.isEmpty then
    ⟨.error (.valueError "No columns selected for ingestion."), 0, [], false⟩
  else if !(truthyS c.source_table) then
    ⟨.error (.valueError "Source ClickHouse table not specified."), 0, [], false⟩
  else if !(truthyS c.target_delimiter) then
    ⟨.error (.valueError "Target file delimiter not specified."), 0, [], false⟩
  else
    match w.targetPathErr with
    | some m => ⟨.error (.valueError m), 0, [], false⟩
    | none =>
      if !w.targetDirOk then
        ⟨.error (.valueError ("Cannot create target directory for file \x27"
            ++ c.target_file.getD "" ++ "\x27. Check permissions.")), 0, [], false⟩
      else
        match get_clickhouse_client c w.jwt w.driver with
        | .error e => ⟨.error e, 0, [Event.connectCall], false⟩
        | .ok _ =>
          match w.query with
          | .chError m =>
              ⟨.error (.chDriverError m), 0,
                [Event.connectCall, Event.sessionOpen, Event.queryStore], true⟩
          | .ok n =>
            match w.writeRes with
            | .ok =>
                ⟨.ok n, n,
                  [Event.connectCall, Event.sessionOpen, Event.queryStore, Event.writeFile], true⟩
            | .ioError =>
                ⟨.error (.runtimeError (writeFailMsg c)), n,
                  [Event.connectCall, Event.sessionOpen, Event.queryStore, Event.writeFile], true⟩
            | .unexpectedError =>
                ⟨.error (.runtimeError "An unexpected error occurred while writing the output file."),
                  n,
                  [Event.connectCall, Event.sessionOpen, Event.queryStore, Event.writeFile], true⟩

/-! ## The `/ingest` endpoint (app.py 321-538) -/

def runFlow (c : Config) (w : World) : FlowOut :=
  match c.flow_type with
  | some s =>
    if s = "ch_to_ff" then chToFf c w
    else if s = "ff_to_ch" then ffToCh c w
    else ⟨.error (.valueError ("Invalid flow_type specified: " ++ s)), 0, [], false⟩
  | none => ⟨.error (.valueError "Invalid flow_type specified: None"), 0, [], false⟩

/-- The JSON body of the endpoint response plus the HTTP status. -/
structure IngestResult where
  success : Bool
  recordsProcessed : Nat
  error : Option String
  status : Nat
deriving DecidableEq

/-- Embedding of the `/ingest` endpoint (app.py 321-538): run the flow,
convert its return/exception into the response JSON (every modelled
exception is in the recognized tuple of the first `except` clause, hence
status 400 with `records_processed = processed_count`), and append the
`finally` close when the `client` local was set. -/
def ingest (c : Config) (w : World) : IngestResult × List Event :=
  match (runFlow c w).res with
  | .ok n =>
      ({ success := true, recordsProcessed := n, error := none, status := 200 },
        (runFlow c w).events ++ (if (runFlow c w).clientOpen then [Event.closeSession] else []))
  | .error e =>
      ({ success := false, recordsProcessed := (runFlow c w).processed, error := some e.msg,
          status := 400 },
        (runFlow c w).events ++ (if (runFlow c w).clientOpen then [Event.closeSession] else []))

/-- Whether a `CREATE TABLE` was executed in a trace. -/
def hasCreate (l : List Event) : Bool :=
  l.any (fun e => match e with | .createTable _ => true | _ => false)

/-- Whether a bulk insert was attempted in a trace. -/
def hasInsert (l : List Event) : Bool :=
  l.any (fun e => match e with | .insertFrame _ _ => true | _ => false)

/-! ## Concrete example requests and worlds used by counterexamples and witnesses -/

def cfgC2a : Config :=
  { host := some "h", port := some 9000, database := some "db", user := some "u",
    jwt := some "tok" }

def cfgC2b : Config :=
  { host := some "h", port := some 9000, database := some "db", user := some "u",
    jwt := some "tok", password := some "pw" }

/-- ff_to_ch request: header file, selected columns `["a","c"]`. -/
def cfgC1cex : Config :=
  { flow_type := some "ff_to_ch", source_file := some "f.csv", source_delimiter := some ",",
    source_has_header := true, columns := ["a", "c"], target_table := some "t" }

/-- The file parses with header `["a","b"]` and zero data rows. -/
def wC1cex : World := { parse := .ok ⟨[("a", .integer), ("b", .text)], 0⟩ }

def cfgC1ok : Config :=
  { flow_type := some "ff_to_ch", source_file := some "g.csv", source_delimiter := some ",",
    target_table := some "t" }

def wC1ok : World := { parse := .ok ⟨[("a", .integer)], 0⟩ }

def cfgC3 : Config :=
  { flow_type := some "ff_to_ch", source_file := some "f.csv", source_delimiter := some ",",
    source_has_header := true, columns := ["a", "c"], target_table := some "t" }

def wC3 : World := { parse := .ok ⟨[("a", .integer), ("b", .text)], 3⟩ }

def cfgC4 : Config :=
  { flow_type := some "ff_to_ch", host := some "h", port := some 8123, database := some "db",
    user := some "u", password := some "pw", source_file := some "f.csv",
    source_delimiter := some ",", target_table := some "t" }

/-- The file parses to two rows; the driver then refuses the connection. -/
def wC4 : World := { parse := .ok ⟨[("a", .integer)], 2⟩, driver := .refused }

def cfgC5 : Config :=
  { flow_type := some "ch_to_ff", host := some "h", port := some 8123, database := some "db",
    user := some "u", password := some "pw", columns := ["a"], source_table := some "s",
    target_file := some "out.csv", target_delimiter := some "," }

/-- The store query yields 5 rows, then the file write fails with IOError. -/
def wC5 : World := { query := .ok 5, writeRes := .ioError }

def wC5fail : World := { driver := .authFailed }

def cfgC6 : Config :=
  { flow_type := some "ff_to_ch", host := some "h", port := some 8123, database := some "db",
    user := some "u", password := some "pw", source_file := some "f.csv",
    source_delimiter := some ",", target_table := some "t" }

def wC6 : World :=
  { parse := .ok ⟨[("a", .integer)], 2⟩,
    describe := .chError "Code: 60. DB::Exception: UNKNOWN_TABLE (f3c1a2)" }

def cfgC7 : Config :=
  { flow_type := some "ff_to_ch", host := some "h", port := some 8123, database := some "db",
    user := some "u", password := some "pw", source_file := some "f.csv",
    source_delimiter := some ",", target_table := some "t", target_create := true }

def wC7 : World :=
  { parse := .ok ⟨[("a", .integer), ("b", .float)], 2⟩,
    describe := .chError "UNKNOWN_TABLE", createErr := some "boom" }

def cfgC10 : Config :=
  { flow_type := some "ff_to_ch", host := some "h", port := some 8123, database := some "db",
    user := some "u", password := some "pw", source_file := some "f.csv",
    source_delimiter := some ",", target_table := some "weird name_; DROP TABLE x" }

def wC10 : World := { parse := .ok ⟨[("a", .integer)], 1⟩ }

/-! ## Helper lemmas (shared infrastructure, not claim theorems) -/

lemma dfSel_nrows (c : Config) (df : Frame) : (dfSel c df).nrows = df.nrows := by
  unfold dfSel
  split <;> rfl

lemma runFlow_ff (c : Config) (w : World) (hf : c.flow_type = some "ff_to_ch") :
    runFlow c w = ffToCh c w := by
  unfold runFlow
  rw [hf]
  simp

lemma runFlow_ch (c : Config) (w : World) (hf : c.flow_type = some "ch_to_ff") :
    runFlow c w = chToFf c w := by
  unfold runFlow
  rw [hf]
  simp

/-- Under passing validation and a successful parse whose column selection
(if any applies) succeeds, the ff_to_ch flow reduces to `afterRead` on the
selected frame. -/
lemma ffToCh_read_ok (c : Config) (w : World) (df0 : Frame)
    (h2 : truthyS c.source_delimiter = true) (h3 : truthyS c.target_table = true)
    (h4 : w.sourcePathErr = none) (h5 : w.sourceExists = true) (h6 : w.sourceIsFile = true)
    (hp : w.parse = .ok df0)
    (hsel : (c.source_has_header && !c.columns.isEmpty) = true →
      (missingCols df0 c.columns).isEmpty = true) :
    ffToCh c w = afterRead c w (dfSel c df0) := by
  unfold ffToCh
  rw [h2, h3, h4, hp, h5, h6]
  simp only [Bool.not_true, Bool.false_eq_true, if_false]
  by_cases hb : (c.source_has_header && !c.columns.isEmpty) = true
  · rw [hb]
    simp only [if_true, hsel hb, Bool.not_true, Bool.false_eq_true, if_false]
    unfold dfSel
    rw [hb]
    simp
  · simp only [Bool.not_eq_true] at hb
    rw [hb]
    simp only [Bool.false_eq_true, if_false]
    unfold dfSel
    rw [hb]
    simp

lemma ingest_events (c : Config) (w : World) :
    (ingest c w).2 = (runFlow c w).events
      ++ (if (runFlow c w).clientOpen then [Event.closeSession] else []) := by
  unfold ingest
  split <;> rfl

lemma insertStage_open (w : World) (df : Frame) (tt : String) (pre : List Event) :
    (insertStage w df tt pre).clientOpen = true := by
  unfold insertStage
  split <;> rfl

lemma insertStage_events (w : World) (df : Frame) (tt : String) (pre : List Event) :
    (insertStage w df tt pre).events = pre ++ [Event.insertFrame df.colNames df.nrows] := by
  unfold insertStage
  split <;> rfl

lemma provisionStage_open (c : Config) (w : World) (df : Frame) (tt full : String) :
    (provisionStage c w df tt full).clientOpen = true := by
  unfold provisionStage
  repeat' split
  all_goals first
    | rfl
    | exact insertStage_open ..

lemma provisionStage_session (c : Config) (w : World) (df : Frame) (tt full : String) :
    Event.sessionOpen ∈ (provisionStage c w df tt full).events := by
  unfold provisionStage
  repeat' split
  all_goals simp [insertStage_events]

lemma provisionStage_describe (c : Config) (w : World) (df : Frame) (tt full : String) :
    Event.describeTable ∈ (provisionStage c w df tt full).events := by
  unfold provisionStage
  repeat' split
  all_goals simp [insertStage_events]

lemma provisionStage_noClose (c : Config) (w : World) (df : Frame) (tt full : String) :
    Event.closeSession ∉ (provisionStage c w df tt full).events := by
  unfold provisionStage
  repeat' split
  all_goals simp [insertStage_events]

lemma provisionStage_shape (c : Config) (w : World) (df : Frame) (tt full : String) :
    ∃ rest, (provisionStage c w df tt full).events
      = Event.readFile :: Event.connectCall :: rest := by
  unfold provisionStage
  repeat' split
  all_goals first
    | exact ⟨_, rfl⟩
    | (rw [insertStage_events]; exact ⟨_, rfl⟩)

lemma afterRead_open_iff (c : Config) (w : World) (df : Frame) :
    Event.sessionOpen ∈ (afterRead c w df).events ↔ (afterRead c w df).clientOpen = true := by
  unfold afterRead
  repeat' split
  all_goals simp [provisionStage_session, provisionStage_open]

lemma afterRead_noClose (c : Config) (w : World) (df : Frame) :
    Event.closeSession ∉ (afterRead c w df).events := by
  unfold afterRead
  repeat' split
  all_goals simp [provisionStage_noClose]

lemma afterRead_shape (c : Config) (w : World) (df : Frame) :
    (afterRead c w df).events = [Event.readFile] ∨
    ∃ rest, (afterRead c w df).events = Event.readFile :: Event.connectCall :: rest := by
  unfold afterRead
  repeat' split
  · exact Or.inl rfl
  · exact Or.inr ⟨_, rfl⟩
  · exact Or.inr ⟨_, rfl⟩
  · exact Or.inr (provisionStage_shape ..)

lemma ffToCh_open_iff (c : Config) (w : World) :
    Event.sessionOpen ∈ (ffToCh c w).events ↔ (ffToCh c w).clientOpen = true := by
  unfold ffToCh
  repeat' split
  all_goals first
    | exact afterRead_open_iff ..
    | simp

lemma ffToCh_noClose (c : Config) (w : World) :
    Event.closeSession ∉ (ffToCh c w).events := by
  unfold ffToCh
  repeat' split
  all_goals first
    | exact afterRead_noClose _ _ _
    | simp

lemma ffToCh_shape (c : Config) (w : World) :
    (ffToCh c w).events = [] ∨ (ffToCh c w).events = [Event.readFile] ∨
    ∃ rest, (ffToCh c w).events = Event.readFile :: Event.connectCall :: rest := by
  unfold ffToCh
  repeat' split
  all_goals first
    | exact Or.inl rfl
    | exact Or.inr (Or.inl rfl)
    | exact Or.inr (afterRead_shape ..)

lemma chToFf_open_iff (c : Config) (w : World) :
    Event.sessionOpen ∈ (chToFf c w).events ↔ (chToFf c w).clientOpen = true := by
  unfold chToFf
  repeat' split
  all_goals simp

lemma chToFf_noClose (c : Config) (w : World) :
    Event.closeSession ∉ (chToFf c w).events := by
  unfold chToFf
  repeat' split
  all_goals simp

lemma runFlow_open_iff (c : Config) (w : World) :
    Event.sessionOpen ∈ (runFlow c w).events ↔ (runFlow c w).clientOpen = true := by
  unfold runFlow
  repeat' split
  all_goals first
    | exact chToFf_open_iff ..
    | exact ffToCh_open_iff ..
    | simp

lemma runFlow_noClose (c : Config) (w : World) :
    Event.closeSession ∉ (runFlow c w).events := by
  unfold runFlow
  repeat' split
  all_goals first
    | exact chToFf_noClose _ _
    | exact ffToCh_noClose _ _
    | simp

lemma afterRead_provision (c : Config) (w : World) (df : Frame) (args : ConnectArgs)
    (hn : df.nrows ≠ 0)
    (hc : get_clickhouse_client c w.jwt w.driver = .ok args)
    (hv : tableNameInvalid (c.target_table.getD "") = false) :
    afterRead c w df = provisionStage c w df (c.target_table.getD "")
      (fullTableName (c.database.getD "") (c.target_table.getD "")) := by
  unfold afterRead
  rw [hc]
  simp only [beq_iff_eq, hn, if_false, hv, Bool.false_eq_true]

end DataVoyager

/-! # Claim theorems -/

namespace DataVoyager

/-- Claim C8 (confirmed): `pandas_to_clickhouse_type` is a pure total
function on inferred column domains; each recognized primitive domain
(integer, float, boolean, timestamp, text) maps deterministically to
exactly one native type string, and every unrecognized domain maps to the
text native type `String` rather than failing. -/
theorem C8_type_mapper_total :
    pandas_to_clickhouse_type .integer = "Int64" ∧
    pandas_to_clickhouse_type .float = "Float64" ∧
    pandas_to_clickhouse_type .boolean = "UInt8" ∧
    pandas_to_clickhouse_type .datetime = "DateTime" ∧
    pandas_to_clickhouse_type .text = "String" ∧
    pandas_to_clickhouse_type .object = "String" ∧
    pandas_to_clickhouse_type .other = "String" :=
  ⟨rfl, rfl, rfl, rfl, rfl, rfl, rfl⟩

/-- Claim C2 (confirmed): with a bearer token that validates, on a port
that is neither 8123 nor 8443: (a) with no password the provider fails
with a `ValueError` (the spec's `ConfigError`) for every driver behavior,
so no connection is ever attempted; (b) with a password also present the
provider hands the driver that password and no bearer header, i.e. the
password is the connection credential and the token is not. -/
theorem C2_bearer_native_port (c : Config) (p : Nat) (d : DriverOutcome)
    (hjwt : truthyS c.jwt = true) (hport : c.port = some p)
    (h1 : p ≠ 8123) (h2 : p ≠ 8443) :
    (truthyS c.password = false →
      isValueErrorRes (get_clickhouse_client c .valid d) = true) ∧
    (truthyS c.password = true → truthyS c.host = true → truthyS c.database = true →
      truthyS c.user = true → p ≠ 0 →
      (get_clickhouse_client c .valid .ok).map (fun a => (a.password, a.httpBearer))
        = .ok (c.password, none)) := by
  have hhttp : portIsHttp p = false := by
    simp [portIsHttp, h1, h2]
  constructor
  · intro hnopw
    unfold get_clickhouse_client get_clickhouse_args
    by_cases hk : (truthyS c.host && truthyN c.port && truthyS c.database && truthyS c.user) = true
    · rw [hk]
      simp only [Bool.not_true, Bool.false_eq_true, if_false, hnopw, hjwt, validate_jwt, hport,
        Option.getD_some, hhttp, Bool.not_false, if_true, isValueErrorRes]
      simp
    · simp only [Bool.not_eq_true] at hk
      rw [hk]
      simp [isValueErrorRes]
  · intro hpw hh hd hu hp0
    have hk : (truthyS c.host && truthyN c.port && truthyS c.database && truthyS c.user) = true := by
      rw [hh, hd, hu, hport]
      simp [truthyN, hp0]
    unfold get_clickhouse_client get_clickhouse_args
    rw [hk]
    simp only [Bool.not_true, Bool.false_eq_true, if_false, hpw, hjwt, validate_jwt, hport,
      Option.getD_some, hhttp, Bool.not_false, if_true, Except.map]
    simp

/-- Claim C2 witness: concrete instantiations of `C2_bearer_native_port`.
With token only on port 9000 the provider returns a `ValueError` before
any connection attempt; with a password as well, the driver receives the
password and no bearer header. -/
theorem C2_bearer_native_port_witness :
    isValueErrorRes (get_clickhouse_client cfgC2a .valid .refused) = true ∧
    (get_clickhouse_client cfgC2b .valid .ok).map (fun a => (a.password, a.httpBearer))
      = .ok (some "pw", none) := by
  constructor
  · exact (C2_bearer_native_port cfgC2a 9000 .refused (by decide) rfl (by decide) (by decide)).1
      (by decide)
  · exact (C2_bearer_native_port cfgC2b 9000 .ok (by decide) rfl (by decide) (by decide)).2
      (by decide) (by decide) (by decide) (by decide) (by decide)

/-- Claim C1 counterexample: a `FileToStore` request whose source file
parses to a frame with zero data rows (header `["a","b"]`, no data) but
whose selected columns include `"c"`, absent from the header.  The claim
says every such request returns `success=true`; the code instead fails
(the selection check at app.py 423-425 runs before the empty-frame
short-circuit at app.py 433). -/
theorem C1_zero_rows_cex :
    wC1cex.parse = .ok ⟨[("a", .integer), ("b", .text)], 0⟩ ∧
    (ingest cfgC1cex wC1cex).1.success = false := by
  constructor
  · rfl
  · decide

/-- Claim C1 (corrected): a `FileToStore` request whose file parses to a
frame with zero data rows (with or without a header), and whose requested
column selection — when a header is present and a selection is given —
names only columns of the parsed header, returns `success=true` with
`recordsProcessed=0` and causes no store-side effect at all: the trace is
exactly one file read (no connection, no `CREATE TABLE`, no insert). -/
theorem C1_empty_frame_short_circuit (c : Config) (w : World)
    (hf : c.flow_type = some "ff_to_ch")
    (h2 : truthyS c.source_delimiter = true) (h3 : truthyS c.target_table = true)
    (h4 : w.sourcePathErr = none) (h5 : w.sourceExists = true) (h6 : w.sourceIsFile = true)
    (hp : w.parse = .emptyData ∨ ∃ df0 : Frame, w.parse = .ok df0 ∧ df0.nrows = 0 ∧
      ((c.source_has_header && !c.columns.isEmpty) = true →
        (missingCols df0 c.columns).isEmpty = true)) :
    ingest c w = ({ success := true, recordsProcessed := 0, error := none, status := 200 },
      [Event.readFile]) := by
  have hrun : runFlow c w = ⟨.ok 0, 0, [Event.readFile], false⟩ := by
    rw [runFlow_ff c w hf]
    rcases hp with hp | ⟨df0, hp, hz, hsel⟩
    · unfold ffToCh
      rw [h2, h3, h4, hp, h5, h6]
      simp
    · rw [ffToCh_read_ok c w df0 h2 h3 h4 h5 h6 hp hsel]
      unfold afterRead
      rw [dfSel_nrows, hz]
      simp
  unfold ingest
  rw [hrun]
  rfl

/-- Claim C1 witness: a header-only file (zero data rows) with no column
selection short-circuits to success with 0 records and a read-only trace. -/
theorem C1_empty_frame_short_circuit_witness :
    ingest cfgC1ok wC1ok
      = ({ success := true, recordsProcessed := 0, error := none, status := 200 },
        [Event.readFile]) :=
  C1_empty_frame_short_circuit cfgC1ok wC1ok rfl (by decide) (by decide) rfl rfl rfl
    (Or.inr ⟨⟨[("a", .integer)], 0⟩, rfl, rfl, by decide⟩)

/-- Claim C3 (code bug): for a header file with `selectedColumns=["a","c"]`
and header `["a","b"]`, the transfer does fail, but the surfaced error is
the generic read-failure message, not a message listing the missing names:
the `ValueError` the code raises at app.py 425 (which does name exactly
`["c"]`, see `missingColsMsg`) sits inside the read `try` block, and the
block's own `except Exception` clause (app.py 441-443) catches it and
re-raises the generic `readMsg` instead.  The spec/claim describe the
intent of line 425; the over-broad except clause defeats it. -/
theorem C3_missing_columns_masked :
    missingCols ⟨[("a", .integer), ("b", .text)], 3⟩ ["a", "c"] = ["c"] ∧
    (ingest cfgC3 wC3).1.success = false ∧
    (ingest cfgC3 wC3).1.error = some (readMsg cfgC3) ∧
    readMsg cfgC3 ≠ missingColsMsg ["c"] := by
  refine ⟨by decide, by decide, by decide, by decide⟩

/-- Claim C4 counterexample: a `FileToStore` run in which the source file
is read (two rows parsed) and only afterwards the connection attempt is
made and refused: the trace contains the file read but never a session
open, and the request fails — so a connection failure does NOT occur
before the file read, contradicting the claimed
Connecting-before-Reading order. -/
theorem C4_connect_before_read_cex :
    Event.readFile ∈ (ingest cfgC4 wC4).2 ∧
    Event.sessionOpen ∉ (ingest cfgC4 wC4).2 ∧
    (ingest cfgC4 wC4).1.success = false := by
  refine ⟨by decide, by decide, by decide⟩

/-- Claim C4 (corrected): in the `FileToStore` flow the actual state order
is Validating, then Reading, then Connecting: whenever a connection
attempt happens at all, the trace begins with the file read followed by
the connect call — the file is always parsed before the store session is
opened, and a connection failure therefore occurs after the file read,
not before it. -/
theorem C4_read_precedes_connect (c : Config) (w : World)
    (hf : c.flow_type = some "ff_to_ch")
    (hc : Event.connectCall ∈ (ingest c w).2) :
    (ingest c w).2.take 2 = [Event.readFile, Event.connectCall] := by
  rw [ingest_events] at hc ⊢
  rw [runFlow_ff c w hf] at hc ⊢
  rcases ffToCh_shape c w with h | h | ⟨rest, h⟩
  · rw [h, List.nil_append] at hc
    exfalso
    split at hc <;> simp at hc
  · rw [h] at hc
    exfalso
    rcases List.mem_append.mp hc with h1 | h1
    · simp at h1
    · split at h1 <;> simp at h1
  · rw [h, List.cons_append, List.cons_append]
    rfl

/-- Claim C4 witness: the concrete refused-connection run of `cfgC4`
starts with the file read and only then the connect call. -/
theorem C4_read_precedes_connect_witness :
    (ingest cfgC4 wC4).2.take 2 = [Event.readFile, Event.connectCall] :=
  C4_read_precedes_connect cfgC4 wC4 rfl (by decide)

/-- Claim C9 (confirmed): in every `/ingest` execution — either flow, any
outcome, success or failure — the session close appears in the trace
exactly when a session open does: a session, once opened, is closed on
every exit path (the `finally` block), and when no session was opened no
close is attempted. -/
theorem C9_session_always_closed (c : Config) (w : World) :
    Event.sessionOpen ∈ (ingest c w).2 ↔ Event.closeSession ∈ (ingest c w).2 := by
  rw [ingest_events]
  cases hb : (runFlow c w).clientOpen
  · simp only [hb, Bool.false_eq_true, if_false, List.append_nil]
    constructor
    · intro hmem
      exact absurd ((runFlow_open_iff c w).mp hmem) (by simp [hb])
    · intro hmem
      exact absurd hmem (runFlow_noClose c w)
  · simp only [hb, if_true]
    constructor
    · intro _
      exact List.mem_append_right _ (by simp)
    · intro _
      exact List.mem_append_left _ ((runFlow_open_iff c w).mpr hb)

/-- Claim C5 (confirmed): every outcome of `/ingest` carries a
`records_processed` count; in the `StoreToFile` (ch_to_ff) flow, a run
that reads `n` rows from the store and then fails writing the file
reports `success=false` with `recordsProcessed = n` (the write-failure
message), while a run whose connection attempt fails — before any read —
reports `recordsProcessed = 0`. -/
theorem C5_records_processed_on_failure (c : Config) (w : World) (n : Nat) (args : ConnectArgs)
    (hf : c.flow_type = some "ch_to_ff")
    (h1 : c.columns.isEmpty = false)
    (h2 : truthyS c.source_table = true)
    (h3 : truthyS c.target_delimiter = true)
    (h4 : w.targetPathErr = none)
    (h5 : w.targetDirOk = true) :
    (get_clickhouse_client c w.jwt w.driver = .ok args → w.query = .ok n →
      w.writeRes = .ioError →
      (ingest c w).1 = ⟨false, n, some (writeFailMsg c), 400⟩) ∧
    (∀ e : PyErr, get_clickhouse_client c w.jwt w.driver = .error e →
      (ingest c w).1.success = false ∧ (ingest c w).1.recordsProcessed = 0) := by
  constructor
  · intro hc hq hw
    have hrun : runFlow c w = ⟨.error (.runtimeError (writeFailMsg c)), n,
        [Event.connectCall, Event.sessionOpen, Event.queryStore, Event.writeFile], true⟩ := by
      rw [runFlow_ch c w hf]
      unfold chToFf
      rw [h1, h2, h3, h4, h5, hc, hq, hw]
      simp
    unfold ingest
    rw [hrun]
    rfl
  · intro e hc
    have hrun : runFlow c w = ⟨.error e, 0, [Event.connectCall], false⟩ := by
      rw [runFlow_ch c w hf]
      unfold chToFf
      rw [h1, h2, h3, h4, h5, hc]
      simp
    unfold ingest
    rw [hrun]
    exact ⟨rfl, rfl⟩

/-- Claim C5 witness: with `cfgC5`, a 5-row read followed by an IOError
on the file write reports 5 records processed in the failure; an
authentication failure during connect reports 0. -/
theorem C5_records_processed_on_failure_witness :
    (ingest cfgC5 wC5).1 = ⟨false, 5, some (writeFailMsg cfgC5), 400⟩ ∧
    ((ingest cfgC5 wC5fail).1.success = false ∧
      (ingest cfgC5 wC5fail).1.recordsProcessed = 0) := by
  constructor
  · exact (C5_records_processed_on_failure cfgC5 wC5 5
      ⟨"h", 8123, "db", "u", false, some "pw", none⟩
      rfl rfl (by decide) (by decide) rfl rfl).1 (by decide) rfl rfl
  · exact (C5_records_processed_on_failure cfgC5 wC5fail 0
      ⟨"h", 8123, "db", "u", false, some "pw", none⟩
      rfl rfl (by decide) (by decide) rfl rfl).2
      (.connectionError "ClickHouse authentication failed for user \x27u\x27. Check credentials/token.")
      (by decide)

/-- Claim C6 (confirmed): a non-empty `FileToStore` transfer whose
existence probe fails with the store's unknown-table error class while
`createIfMissing=false` fails with the `ValueError` (spec `SchemaError`)
stating the table does not exist and creation was not requested, and the
trace shows no `CREATE TABLE` and no insert: exactly read, connect, open,
probe, close. -/
theorem C6_absent_table_no_create (c : Config) (w : World) (df0 : Frame) (args : ConnectArgs)
    (m : String)
    (hf : c.flow_type = some "ff_to_ch")
    (h2 : truthyS c.source_delimiter = true) (h3 : truthyS c.target_table = true)
    (h4 : w.sourcePathErr = none) (h5 : w.sourceExists = true) (h6 : w.sourceIsFile = true)
    (hp : w.parse = .ok df0)
    (hsel : (c.source_has_header && !c.columns.isEmpty) = true →
      (missingCols df0 c.columns).isEmpty = true)
    (hn : df0.nrows ≠ 0)
    (hc : get_clickhouse_client c w.jwt w.driver = .ok args)
    (hv : tableNameInvalid (c.target_table.getD "") = false)
    (hd : w.describe = .chError m) (hm : isUnknownTableErr m = true)
    (hcr : c.target_create = false) :
    (ingest c w).1 = ⟨false, df0.nrows,
      some (noCreateMsg (fullTableName (c.database.getD "") (c.target_table.getD ""))), 400⟩ ∧
    (ingest c w).2 = [Event.readFile, Event.connectCall, Event.sessionOpen,
      Event.describeTable, Event.closeSession] := by
  have hn' : (dfSel c df0).nrows ≠ 0 := by
    rw [dfSel_nrows]
    exact hn
  have hrun : runFlow c w = ⟨.error (.valueError
      (noCreateMsg (fullTableName (c.database.getD "") (c.target_table.getD "")))),
      (dfSel c df0).nrows,
      [Event.readFile, Event.connectCall, Event.sessionOpen, Event.describeTable], true⟩ := by
    rw [runFlow_ff c w hf, ffToCh_read_ok c w df0 h2 h3 h4 h5 h6 hp hsel,
      afterRead_provision c w (dfSel c df0) args hn' hc hv]
    unfold provisionStage
    rw [hd]
    simp [hm, hcr]
  unfold ingest
  rw [hrun, dfSel_nrows]
  exact ⟨rfl, rfl⟩

/-- Claim C6 witness: concrete run against an absent table (`Code: 60`,
`UNKNOWN_TABLE`) with creation unchecked. -/
theorem C6_absent_table_no_create_witness :
    (ingest cfgC6 wC6).1 = ⟨false, 2, some (noCreateMsg (fullTableName "db" "t")), 400⟩ ∧
    (ingest cfgC6 wC6).2 = [Event.readFile, Event.connectCall, Event.sessionOpen,
      Event.describeTable, Event.closeSession] :=
  C6_absent_table_no_create cfgC6 wC6 ⟨[("a", .integer)], 2⟩
    ⟨"h", 8123, "db", "u", false, some "pw", none⟩
    "Code: 60. DB::Exception: UNKNOWN_TABLE (f3c1a2)"
    rfl (by decide) (by decide) rfl rfl rfl rfl (by decide) (by decide) (by decide) (by decide)
    rfl (by decide) rfl

/-- Claim C7 (confirmed): when the target table is absent and
`createIfMissing=true`: (a) without a source header the transfer fails
with the `ValueError` (spec `SchemaError`) that no header is available,
and no `CREATE TABLE` and no insert are executed; (b) with a header, a
`CREATE TABLE` is executed whose statement has exactly one
`"name" Type` item per column of the ingested frame, in frame order,
each type obtained from `pandas_to_clickhouse_type`, with the
unordered/append-only engine `MergeTree()` and the empty sort key
`ORDER BY tuple()`; and (c) if executing that statement fails, the
transfer fails with the `RuntimeError` (spec `DDLError`) wrapping the
failure. -/
theorem C7_create_if_missing (c : Config) (w : World) (df0 : Frame) (args : ConnectArgs)
    (m em : String)
    (hf : c.flow_type = some "ff_to_ch")
    (h2 : truthyS c.source_delimiter = true) (h3 : truthyS c.target_table = true)
    (h4 : w.sourcePathErr = none) (h5 : w.sourceExists = true) (h6 : w.sourceIsFile = true)
    (hp : w.parse = .ok df0)
    (hsel : (c.source_has_header && !c.columns.isEmpty) = true →
      (missingCols df0 c.columns).isEmpty = true)
    (hn : df0.nrows ≠ 0)
    (hc : get_clickhouse_client c w.jwt w.driver = .ok args)
    (hv : tableNameInvalid (c.target_table.getD "") = false)
    (hd : w.describe = .chError m) (hm : isUnknownTableErr m = true)
    (hcr : c.target_create = true) :
    (c.source_has_header = false →
      (ingest c w).1 = ⟨false, df0.nrows, some noHeaderMsg, 400⟩ ∧
      hasCreate (ingest c w).2 = false ∧ hasInsert (ingest c w).2 = false) ∧
    (c.source_has_header = true →
      Event.createTable (createStatement
          (fullTableName (c.database.getD "") (c.target_table.getD "")) (dfSel c df0))
        ∈ (ingest c w).2 ∧
      createStatement (fullTableName (c.database.getD "") (c.target_table.getD ""))
          (dfSel c df0)
        = "CREATE TABLE " ++ fullTableName (c.database.getD "") (c.target_table.getD "")
          ++ " (\n    "
          ++ String.intercalate ",\n    "
              ((dfSel c df0).cols.map
                (fun p => "\"" ++ p.1 ++ "\" " ++ pandas_to_clickhouse_type p.2))
          ++ "\n) ENGINE = MergeTree() ORDER BY tuple()") ∧
    (c.source_has_header = true → w.createErr = some em →
      (ingest c w).1 = ⟨false, df0.nrows,
        some (createFailMsg (fullTableName (c.database.getD "") (c.target_table.getD "")) em),
        400⟩) := by
  have hn' : (dfSel c df0).nrows ≠ 0 := by
    rw [dfSel_nrows]
    exact hn
  have hbase : runFlow c w = provisionStage c w (dfSel c df0) (c.target_table.getD "")
      (fullTableName (c.database.getD "") (c.target_table.getD "")) := by
    rw [runFlow_ff c w hf, ffToCh_read_ok c w df0 h2 h3 h4 h5 h6 hp hsel,
      afterRead_provision c w (dfSel c df0) args hn' hc hv]
  refine ⟨?_, ?_, ?_⟩
  · intro hh
    have hps : provisionStage c w (dfSel c df0) (c.target_table.getD "")
        (fullTableName (c.database.getD "") (c.target_table.getD ""))
        = ⟨.error (.valueError noHeaderMsg), (dfSel c df0).nrows,
          [Event.readFile, Event.connectCall, Event.sessionOpen, Event.describeTable], true⟩ := by
      unfold provisionStage
      rw [hd]
      simp [hm, hcr, hh]
    refine ⟨?_, ?_, ?_⟩
    · unfold ingest
      rw [hbase, hps, dfSel_nrows]
      rfl
    · rw [ingest_events, hbase, hps]
      rfl
    · rw [ingest_events, hbase, hps]
      rfl
  · intro hh
    constructor
    · cases hce : w.createErr with
      | none =>
        have hps : provisionStage c w (dfSel c df0) (c.target_table.getD "")
            (fullTableName (c.database.getD "") (c.target_table.getD ""))
            = insertStage w (dfSel c df0) (c.target_table.getD "")
                [Event.readFile, Event.connectCall, Event.sessionOpen, Event.describeTable,
                  Event.createTable (createStatement
                    (fullTableName (c.database.getD "") (c.target_table.getD ""))
                    (dfSel c df0))] := by
          unfold provisionStage
          rw [hd, hce]
          simp [hm, hcr, hh]
        rw [ingest_events, hbase, hps, insertStage_events]
        simp
      | some e2 =>
        have hps : provisionStage c w (dfSel c df0) (c.target_table.getD "")
            (fullTableName (c.database.getD "") (c.target_table.getD ""))
            = ⟨.error (.runtimeError (createFailMsg
                (fullTableName (c.database.getD "") (c.target_table.getD "")) e2)),
              (dfSel c df0).nrows,
              [Event.readFile, Event.connectCall, Event.sessionOpen, Event.describeTable,
                Event.createTable (createStatement
                  (fullTableName (c.database.getD "") (c.target_table.getD ""))
                  (dfSel c df0))], true⟩ := by
          unfold provisionStage
          rw [hd, hce]
          simp [hm, hcr, hh]
        rw [ingest_events, hbase, hps]
        simp
    · rfl
  · intro hh hce
    have hps : provisionStage c w (dfSel c df0) (c.target_table.getD "")
        (fullTableName (c.database.getD "") (c.target_table.getD ""))
        = ⟨.error (.runtimeError (createFailMsg
            (fullTableName (c.database.getD "") (c.target_table.getD "")) em)),
          (dfSel c df0).nrows,
          [Event.readFile, Event.connectCall, Event.sessionOpen, Event.describeTable,
            Event.createTable (createStatement
              (fullTableName (c.database.getD "") (c.target_table.getD ""))
              (dfSel c df0))], true⟩ := by
      unfold provisionStage
      rw [hd, hce]
      simp [hm, hcr, hh]
    unfold ingest
    rw [hbase, hps, dfSel_nrows]
    rfl

/-- Claim C7 witness: concrete run against an absent table with
`createIfMissing=true`, header-derived columns `a:Int64, b:Float64`; the
synthesized DDL is executed and its failure (`boom`) surfaces as the
wrapped creation failure. -/
theorem C7_create_if_missing_witness :
    Event.createTable
        "CREATE TABLE \"db\".\"t\" (\n    \"a\" Int64,\n    \"b\" Float64\n) ENGINE = MergeTree() ORDER BY tuple()"
      ∈ (ingest cfgC7 wC7).2 ∧
    (ingest cfgC7 wC7).1 = ⟨false, 2, some (createFailMsg (fullTableName "db" "t") "boom"),
      400⟩ := by
  have h := C7_create_if_missing cfgC7 wC7 ⟨[("a", .integer), ("b", .float)], 2⟩
    ⟨"h", 8123, "db", "u", false, some "pw", none⟩ "UNKNOWN_TABLE" "boom"
    rfl (by decide) (by decide) rfl rfl rfl rfl (by decide) (by decide) (by decide) (by decide)
    rfl (by decide) rfl
  have hst : createStatement (fullTableName (cfgC7.database.getD "") (cfgC7.target_table.getD ""))
      (dfSel cfgC7 ⟨[("a", .integer), ("b", .float)], 2⟩)
      = "CREATE TABLE \"db\".\"t\" (\n    \"a\" Int64,\n    \"b\" Float64\n) ENGINE = MergeTree() ORDER BY tuple()" := by
    decide
  exact ⟨hst ▸ (h.2.1 rfl).1, h.2.2 rfl rfl⟩

/-- Claim C10 (confirmed, implicit): the target-table-name check of the
`FileToStore` flow rejects a name exactly when it is not alphanumeric AND
contains no underscore; consequently any name containing at least one
underscore passes the check whatever other characters it contains, and a
run with such a name proceeds past validation to the existence probe. -/
theorem C10_table_name_check (c : Config) (w : World) (df0 : Frame) (args : ConnectArgs)
    (t : String)
    (hf : c.flow_type = some "ff_to_ch")
    (h2 : truthyS c.source_delimiter = true)
    (ht : c.target_table = some t) (h3 : truthyS c.target_table = true)
    (h4 : w.sourcePathErr = none) (h5 : w.sourceExists = true) (h6 : w.sourceIsFile = true)
    (hp : w.parse = .ok df0)
    (hsel : (c.source_has_header && !c.columns.isEmpty) = true →
      (missingCols df0 c.columns).isEmpty = true)
    (hn : df0.nrows ≠ 0)
    (hc : get_clickhouse_client c w.jwt w.driver = .ok args)
    (hund : t.data.contains '_' = true) :
    tableNameInvalid t = false ∧
    (∀ s : String, tableNameInvalid s = true ↔
      (pyIsAlnum s = false ∧ s.data.contains '_' = false)) ∧
    Event.describeTable ∈ (ingest c w).2 := by
  have hv : tableNameInvalid t = false := by
    unfold tableNameInvalid
    rw [hund]
    simp
  have hn' : (dfSel c df0).nrows ≠ 0 := by
    rw [dfSel_nrows]
    exact hn
  have hv' : tableNameInvalid (c.target_table.getD "") = false := by
    rw [ht]
    exact hv
  refine ⟨hv, ?_, ?_⟩
  · intro s
    unfold tableNameInvalid
    constructor
    · intro hs
      simp only [Bool.and_eq_true, Bool.not_eq_true'] at hs
      exact hs
    · intro hs
      simp only [Bool.and_eq_true, Bool.not_eq_true']
      exact hs
  · rw [ingest_events, runFlow_ff c w hf, ffToCh_read_ok c w df0 h2 h3 h4 h5 h6 hp hsel,
      afterRead_provision c w (dfSel c df0) args hn' hc hv']
    exact List.mem_append_left _ (provisionStage_describe c w (dfSel c df0)
      (c.target_table.getD "") (fullTableName (c.database.getD "") (c.target_table.getD "")))

/-- Claim C10 witness: the name `"weird name_; DROP TABLE x"` — spaces,
semicolon, SQL text, one underscore — passes the check and the run
reaches the existence probe. -/
theorem C10_table_name_check_witness :
    tableNameInvalid "weird name_; DROP TABLE x" = false ∧
    Event.describeTable ∈ (ingest cfgC10 wC10).2 := by
  have h := C10_table_name_check cfgC10 wC10 ⟨[("a", .integer)], 1⟩
    ⟨"h", 8123, "db", "u", false, some "pw", none⟩ "weird name_; DROP TABLE x"
    rfl (by decide) rfl (by decide) rfl rfl rfl rfl (by decide) (by decide) (by decide)
    (by decide)
  exact ⟨h.1, h.2.2⟩

end DataVoyager
